import Mathlib

/-!
A shallow embedding of `transfer_protocol.h`.

Source: `jni/videoutil/source/transfer_protocol.h`.

Conventions of the embedding.

* A byte is a `Nat` below 256; a C buffer is a `List Nat`.
* C indexes buffers without bounds checks.  A read `buf[i]` is modelled by
  `peek env buf i`: inside the buffer it is the buffer's byte, outside it is
  `env i`, an arbitrary byte supplied by the surrounding memory `env`.
  Statements quantified over `env` hold whatever such a read returns.
  The scan of `has_sps_pps` records the index of every read in the ghost
  field `reads`.
* A call that reads outside its buffer has no defined behaviour in C.  The
  functions `parse_data_package_run` and `has_sps_pps_run` give the `Outcome`
  of a call: the value it returns when all its reads are inside the buffer,
  `Outcome.undefined` when one of them is not.
* `int` values are `Int`; `uint16_t` stores are reduced modulo `65536`.
* The host byte order is a parameter (`ByteOrder`), since the code loads the
  length field through a `uint16_t *`.
-/

namespace TransferProtocol

/-! ## Memory -/

/-- The byte read by the C expression `buf[i]`: the buffer's byte when `i` is
inside the buffer, the surrounding memory's byte `env i` otherwise. -/
def peek (env : Int → Nat) (buf : List Nat) (i : Int) : Nat :=
  if 0 ≤ i ∧ i < (buf.length : Int) then buf.getD i.toNat 0 else env i

/-- A buffer of bytes: every element is below 256. -/
def isBytes (buf : List Nat) : Prop := ∀ b ∈ buf, b < 256

instance (buf : List Nat) : Decidable (isBytes buf) := by
  unfold isBytes; infer_instance

/-! ## `verify` (lines 84–96) -/

/-- The source's `verify`:
```c
char result=0;
for(int i=0; i<size; i++) { result^=*buf++; }
if(result != data[size]) { return -1; }
return 0;
```
-/
def verify (env : Int → Nat) (data : List Nat) (size : Int) : Int :=
  let result := (List.range size.toNat).foldl (fun (r : Nat) (i : Nat) => r ^^^ peek env data (i : Int)) 0
  if result ≠ peek env data size then -1 else 0

/-! ## Length decoding (lines 61–74) -/

/-- Byte order of the host on which the code runs. -/
inductive ByteOrder
  | little
  | big
  deriving DecidableEq, Repr

/-- The value of the C expression `p16[0]` for `uint16_t *p16 = (uint16_t *)data`:
the first two bytes of `data` read as one 16-bit integer in the host's byte
order. -/
def load16 (host : ByteOrder) (env : Int → Nat) (data : List Nat) : Nat :=
  match host with
  | ByteOrder.little => peek env data 0 + 256 * peek env data 1
  | ByteOrder.big => 256 * peek env data 0 + peek env data 1

/-- The macro `#define SWAP16(a) ( (a)<<8 | (a)>>8 )`.  Its `uint16_t` argument
is promoted to `int`, and the shifts and the `|` are computed there (the
result stays below `2^24`, so `int` does not overflow). -/
def SWAP16 (a : Nat) : Nat := (a <<< 8) ||| (a >>> 8)

/-- The source's `get_valid_data_length`:
```c
uint16_t *p16 = (uint16_t *)data;
return SWAP16(p16[0]);
```
The return type is `int`: the macro's value is returned as it is. -/
def get_valid_data_length (host : ByteOrder) (env : Int → Nat) (data : List Nat) : Int :=
  ((SWAP16 (load16 host env data) : Nat) : Int)

/-! ## `data_package` (lines 10–17) and `parse_data_package` (lines 107–127) -/

/-- The struct `data_package`.  `package_length` is a `uint16_t`, the other
scalars are `uint8_t`; `nal_data` is the buffer the pointer refers to. -/
structure data_package where
  package_length : Nat
  seq : Nat
  package_type : Nat
  slice_ident : Nat
  nal_data : List Nat
  verify : Nat
  deriving DecidableEq, Repr

/-- The bytes `memcpy` reads: `n` bytes of `buf` starting at offset `off`. -/
def memcpy_src (env : Int → Nat) (buf : List Nat) (off : Int) (n : Nat) : List Nat :=
  (List.range n).map (fun (k : Nat) => peek env buf (off + (k : Int)))

/-- The source's `parse_data_package`, as a function from the input buffer and
the packet the caller passed in to the return value and the packet afterwards.
```c
package->package_length = SWAP16(p16[0]);
package->seq = p8[2];
package->package_type = p8[3];
if(package->package_type != 0x01) { perror(...); return -1; }
package->slice_ident = p8[4];
package->nal_data = (uint8_t *)malloc(package->package_length-5);
assert(package->nal_data);
if(!package->nal_data) { perror(...); }
memcpy(package->nal_data, &p8[5], package->package_length-5);
package->verify=p8[package->package_length];
return 0;
```
`none` stands for a call that does not return.  `package_length-5` is an `int`;
when it is negative, its conversion to `size_t` is a size no allocator can
serve, `malloc` returns `NULL` and `assert(package->nal_data)` aborts (without
assertions the `memcpy` to `NULL` ends the call instead).  An allocation of a
non-negative size is taken to succeed, as is `malloc(0)`. -/
def parse_data_package (host : ByteOrder) (env : Int → Nat) (data : List Nat)
    (package : data_package) : Option (Int × data_package) :=
  let package := { package with package_length := SWAP16 (load16 host env data) % 65536 }
  let package := { package with seq := peek env data 2 }
  let package := { package with package_type := peek env data 3 }
  if package.package_type ≠ 0x01 then
    some (-1, package)
  else
    let package := { package with slice_ident := peek env data 4 }
    let n : Int := (package.package_length : Int) - 5
    if n < 0 then
      none
    else
      let package := { package with nal_data := memcpy_src env data 5 n.toNat }
      let package := { package with verify := peek env data (package.package_length : Int) }
      some (0, package)

/-! ## Slice classification (lines 49–54, 139–141) -/

/-- The enum `slice_type`. -/
inductive slice_type
  | SLICE_TYPE_INTER
  | SLICE_TYPE_LAST
  | SLICE_TYPE_FIRST
  | SLICE_TYPE_NONE
  deriving DecidableEq, Repr

/-- The integer value of an enumerator of `slice_type`
(`SLICE_TYPE_INTER = 0`, then counting up). -/
def slice_type.toInt : slice_type → Int
  | slice_type.SLICE_TYPE_INTER => 0
  | slice_type.SLICE_TYPE_LAST => 1
  | slice_type.SLICE_TYPE_FIRST => 2
  | slice_type.SLICE_TYPE_NONE => 3

/-- The source's `get_data_package_slice_ident_type`:
`return package->slice_ident & 0x03;`. -/
def get_data_package_slice_ident_type (package : data_package) : Int :=
  ((package.slice_ident &&& 0x03 : Nat) : Int)

/-! ## `has_sps_pps` (lines 143–218) -/

/-- The local enum `_status` of `has_sps_pps`. -/
inductive Status
  | STATUS_PARSE_SPS
  | STATUS_PARSE_PPS
  | STATUS_PARSE_PPS_END
  | STATUS_PARSE_ERROR
  | STATUS_PARSE_SUCCESS
  deriving DecidableEq, Repr

/-- The local variables of `has_sps_pps` that the loop updates, and the ghost
field `reads`: the indices `k` of all reads `data[k]` made so far, in order. -/
structure ScanState where
  status : Status
  sps_offset : Int
  pps_offset : Int
  sps_size : Int
  pps_size : Int
  reads : List Int
  deriving DecidableEq, Repr

/-- The condition shared by the three cases, for the nibble `nib`:
```c
((data[i] & 0x0f) == nib) && (data[i-1] == 0x01) && (data[i-2] == 0x00)
  && (data[i-3] == 0x00) && (data[i-4] == 0x00)
```
evaluated left to right, stopping at the first false operand: its value and
the indices it reads. -/
def unit_start (env : Int → Nat) (data : List Nat) (i : Int) (nib : Nat) : Bool × List Int :=
  if peek env data i &&& 0x0f ≠ nib then (false, [i])
  else if peek env data (i - 1) ≠ 0x01 then (false, [i, i - 1])
  else if peek env data (i - 2) ≠ 0x00 then (false, [i, i - 1, i - 2])
  else if peek env data (i - 3) ≠ 0x00 then (false, [i, i - 1, i - 2, i - 3])
  else if peek env data (i - 4) ≠ 0x00 then (false, [i, i - 1, i - 2, i - 3, i - 4])
  else (true, [i, i - 1, i - 2, i - 3, i - 4])

/-- The code from `case STATUS_PARSE_PPS_END:` to the end of the switch.  The
second component tells whether the switch was left by `continue`.
```c
if( ((data[i] & 0x0f) == 0x08) && ... ) {
  sps_size = i-pps_offset-4;
  status = STATUS_PARSE_SUCCESS;
  break;
}
``` -/
def case_PPS_END (env : Int → Nat) (data : List Nat) (i : Int) (s : ScanState) :
    ScanState × Bool :=
  let c := unit_start env data i 0x08
  let s := { s with reads := s.reads ++ c.2 }
  if c.1 then
    ({ s with sps_size := i - s.pps_offset - 4, status := Status.STATUS_PARSE_SUCCESS }, false)
  else
    (s, false)

/-- The code from `case STATUS_PARSE_PPS:`; without a match it falls through
to the next case.
```c
if( ((data[i] & 0x0f) == 0x08) && ... ) {
  pps_offset = i+1;
  sps_size = pps_offset-sps_offset-5;
  status = STATUS_PARSE_PPS_END;
  continue;
}
``` -/
def case_PPS (env : Int → Nat) (data : List Nat) (i : Int) (s : ScanState) :
    ScanState × Bool :=
  let c := unit_start env data i 0x08
  let s := { s with reads := s.reads ++ c.2 }
  if c.1 then
    ({ s with pps_offset := i + 1, sps_size := (i + 1) - s.sps_offset - 5,
              status := Status.STATUS_PARSE_PPS_END }, true)
  else
    case_PPS_END env data i s

/-- The code from `case STATUS_PARSE_SPS:`; without a match it falls through
to the next case.
```c
if( ((data[i] & 0x0f) == 0x07) && ... ) {
  sps_offset = i+1;
  status = STATUS_PARSE_PPS;
  continue;
}
``` -/
def case_SPS (env : Int → Nat) (data : List Nat) (i : Int) (s : ScanState) :
    ScanState × Bool :=
  let c := unit_start env data i 0x07
  let s := { s with reads := s.reads ++ c.2 }
  if c.1 then
    ({ s with sps_offset := i + 1, status := Status.STATUS_PARSE_PPS }, true)
  else
    case_PPS env data i s

/-- The statement `switch (status) { ... }`.  There is no `default:` and no
case for `STATUS_PARSE_ERROR` or `STATUS_PARSE_SUCCESS`. -/
def switch_status (env : Int → Nat) (data : List Nat) (i : Int) (s : ScanState) :
    ScanState × Bool :=
  match s.status with
  | Status.STATUS_PARSE_SPS => case_SPS env data i s
  | Status.STATUS_PARSE_PPS => case_PPS env data i s
  | Status.STATUS_PARSE_PPS_END => case_PPS_END env data i s
  | Status.STATUS_PARSE_ERROR => (s, false)
  | Status.STATUS_PARSE_SUCCESS => (s, false)

/-- One iteration of the loop: the switch, and then, unless the switch was
left by `continue`, the statement `status = STATUS_PARSE_ERROR;`. -/
def loop_body (env : Int → Nat) (data : List Nat) (i : Int) (s : ScanState) : ScanState :=
  let r := switch_status env data i s
  if r.2 then r.1 else { r.1 with status := Status.STATUS_PARSE_ERROR }

/-- The locals before the loop.  `status` is declared without an initialiser,
so its value on entry is a parameter. -/
def scan_init (status0 : Status) : ScanState :=
  { status := status0, sps_offset := 0, pps_offset := 0, sps_size := 0, pps_size := 0,
    reads := [] }

/-- The loop `for(int i=0; i<package->package_length; i++) { ... }` over
`data = package->nal_data`. -/
def scan (env : Int → Nat) (package : data_package) (status0 : Status) : ScanState :=
  (List.range package.package_length).foldl
    (fun (s : ScanState) (i : Nat) => loop_body env package.nal_data (i : Int) s)
    (scan_init status0)

/-- What a call of `has_sps_pps` leaves behind: the return value, the buffers
its local pointers `sps`, `pps` and `sps_pps` refer to when it returns (`none`
when they were not assigned; the arguments are passed by value, so the caller's
pointers are not changed), and the indices of `nal_data` it read. -/
structure sps_pps_result where
  ret : Int
  sps : Option (List Nat)
  pps : Option (List Nat)
  sps_pps : Option (List Nat)
  reads : List Int
  deriving DecidableEq, Repr

/-- The source's `has_sps_pps`: the loop, and then
```c
if(status == STATUS_PARSE_SUCCESS) {
  sps = (uint8_t *)malloc(sps_size*sizeof(uint8_t));
  memcpy(sps, data+sps_offset, sps_size);
  pps = (unsigned char *)malloc(pps_size*sizeof(unsigned char));
  memcpy(pps, data+pps_offset, pps_size);
  sps_pps = chrs_join(sps, pps);
  return 0;
}
return -1;
```
`chrs_join` comes from `utils.h`, which is not part of the source at hand, and
is a parameter.  `status0` is the value of the uninitialised `status` on entry.
`none` stands for a call that does not return: a negative size makes `malloc`
return `NULL` and the `memcpy` to it ends the call. -/
def has_sps_pps (chrs_join : List Nat → List Nat → List Nat) (env : Int → Nat)
    (package : data_package) (status0 : Status) : Option sps_pps_result :=
  let data := package.nal_data
  let s := scan env package status0
  if s.status = Status.STATUS_PARSE_SUCCESS then
    if s.sps_size < 0 ∨ s.pps_size < 0 then
      none
    else
      let sps := memcpy_src env data s.sps_offset s.sps_size.toNat
      let pps := memcpy_src env data s.pps_offset s.pps_size.toNat
      some { ret := 0, sps := some sps, pps := some pps, sps_pps := some (chrs_join sps pps),
             reads := s.reads
               ++ (List.range s.sps_size.toNat).map (fun (k : Nat) => s.sps_offset + (k : Int))
               ++ (List.range s.pps_size.toNat).map (fun (k : Nat) => s.pps_offset + (k : Int)) }
  else
    some { ret := -1, sps := none, pps := none, sps_pps := none, reads := s.reads }

/-! ## Outcome of a call -/

/-- How a call ends: it returns a value; or `assert` aborts it; or its
behaviour is undefined, because it reads outside a buffer or writes through
`NULL`. -/
inductive Outcome (α : Type)
  | returns (value : α)
  | aborts
  | undefined
  deriving DecidableEq, Repr

/-- The index `k` lies inside the buffer `buf`. -/
def in_bounds (buf : List Nat) (k : Int) : Bool :=
  decide (0 ≤ k ∧ k < (buf.length : Int))

/-- The indices of `data` that a call of `parse_data_package` reads, in order:
`p16[0]` (bytes 0 and 1), `p8[2]`, `p8[3]`; then, when `package_type` is 0x01,
`p8[4]`; then, when the allocation size `package_length-5` is not negative,
the `package_length-5` bytes from index 5 on that `memcpy` reads, and
`p8[package_length]`. -/
def parse_data_package_reads (host : ByteOrder) (env : Int → Nat) (data : List Nat) :
    List Int :=
  [0, 1, 2, 3] ++
    (if peek env data 3 ≠ 0x01 then []
     else
       [4] ++
         (if ((SWAP16 (load16 host env data) % 65536 : Nat) : Int) - 5 < 0 then []
          else
            (List.range (SWAP16 (load16 host env data) % 65536 - 5)).map
                (fun (k : Nat) => (5 : Int) + (k : Int))
              ++ [((SWAP16 (load16 host env data) % 65536 : Nat) : Int)]))

/-- The outcome of a call of `parse_data_package`: undefined when the call
reads outside `data`; otherwise what `parse_data_package` gives, a return or
the abort at `assert(package->nal_data)`. -/
def parse_data_package_run (host : ByteOrder) (env : Int → Nat) (data : List Nat)
    (package : data_package) : Outcome (Int × data_package) :=
  if (parse_data_package_reads host env data).all (in_bounds data) then
    match parse_data_package host env data package with
    | some r => Outcome.returns r
    | none => Outcome.aborts
  else
    Outcome.undefined

/-- The outcome of a call of `has_sps_pps`: undefined when the call reads
outside `nal_data` or copies to the `NULL` of a failed allocation; otherwise
the return of `has_sps_pps`. -/
def has_sps_pps_run (chrs_join : List Nat → List Nat → List Nat) (env : Int → Nat)
    (package : data_package) (status0 : Status) : Outcome sps_pps_result :=
  match has_sps_pps chrs_join env package status0 with
  | some r =>
    if r.reads.all (in_bounds package.nal_data) then Outcome.returns r else Outcome.undefined
  | none => Outcome.undefined

/-! ## Specification-side definitions -/

/-- Specification side: the bitwise XOR of all bytes of a list. -/
def xorAll (l : List Nat) : Nat := l.foldl (fun r b => r ^^^ b) 0

/-- Specification side: `nal[i]` is preceded by the start code `00 00 00 01`
(any type byte may follow at `i`). -/
def start_code_before (nal : List Nat) (i : Nat) : Bool :=
  decide (4 ≤ i ∧ i < nal.length ∧ nal.getD (i - 4) 0 = 0x00 ∧ nal.getD (i - 3) 0 = 0x00
    ∧ nal.getD (i - 2) 0 = 0x00 ∧ nal.getD (i - 1) 0 = 0x01)

/-- Specification side: `nal[i]` is the type byte of a unit of type nibble
`nib`: a start code precedes it and its low four bits are `nib`. -/
def unit_at (nal : List Nat) (i : Nat) (nib : Nat) : Bool :=
  start_code_before nal i && decide (nal.getD i 0 &&& 0x0f = nib)

/-- Specification side: `nal` holds a start code followed by a type byte of
nibble `nib`. -/
def contains_unit (nal : List Nat) (nib : Nat) : Bool :=
  (List.range nal.length).any (fun i => unit_at nal i nib)

/-- Specification side: `nal` holds a complete SPS+PPS pair: an SPS unit
(nibble 7), later a PPS unit (nibble 8), later a further start code. -/
def contains_complete_pair (nal : List Nat) : Bool :=
  (List.range nal.length).any (fun i =>
    unit_at nal i 0x07 && (List.range nal.length).any (fun j =>
      decide (i < j) && unit_at nal j 0x08 && (List.range nal.length).any (fun k =>
        decide (j < k) && start_code_before nal k)))

/-- Specification side: the buffer of the round trip,
`00 00 00 01 <SPS-type> sps 00 00 00 01 <PPS-type> pps 00 00 00 01 <next-unit>`. -/
def round_trip_nal (sps_type : Nat) (sps : List Nat) (pps_type : Nat) (pps : List Nat)
    (next_unit : Nat) : List Nat :=
  [0x00, 0x00, 0x00, 0x01, sps_type] ++ sps ++ [0x00, 0x00, 0x00, 0x01, pps_type] ++ pps
    ++ [0x00, 0x00, 0x00, 0x01, next_unit]

/-- A data packet around `nal`, as `parse_data_package` produces it:
`package_length` is the length of `nal_data` plus 5. -/
def packet_of_nal (nal : List Nat) : data_package :=
  { package_length := nal.length + 5, seq := 0, package_type := 0x01, slice_ident := 0,
    nal_data := nal, verify := 0 }

/-- Specification side: the buffer with bit `b` of byte `j` flipped. -/
def flip_bit (data : List Nat) (j b : Nat) : List Nat :=
  data.set j (data.getD j 0 ^^^ 2 ^ b)

/-- Specification side: the buffer with bit `b` flipped in byte `j` and in
byte `k`. -/
def flip_bit_pair (data : List Nat) (j k b : Nat) : List Nat :=
  (data.set j (data.getD j 0 ^^^ 2 ^ b)).set k (data.getD k 0 ^^^ 2 ^ b)

/-- Specification side: the buffer with the bytes at `j` and `k` exchanged. -/
def swap_bytes (data : List Nat) (j k : Nat) : List Nat :=
  (data.set j (data.getD k 0)).set k (data.getD j 0)

/-- A state of the scan with empty `reads`, for stating single steps. -/
def scan_state (status : Status) (sps_offset pps_offset sps_size pps_size : Int) : ScanState :=
  { status := status, sps_offset := sps_offset, pps_offset := pps_offset,
    sps_size := sps_size, pps_size := pps_size, reads := [] }

/-! ## Lemmas -/

theorem peek_of_lt (env : Int → Nat) (buf : List Nat) (i : Nat) (h : i < buf.length) :
    peek env buf (i : Int) = buf.getD i 0 := by
  unfold peek
  have h1 : (0 : Int) ≤ (i : Int) ∧ (i : Int) < (buf.length : Int) := by omega
  rw [if_pos h1]
  simp

theorem foldl_range_peek (env : Int → Nat) (data : List Nat) (a : Nat) :
    ∀ n : Nat, n ≤ data.length →
      (List.range n).foldl (fun (r : Nat) (i : Nat) => r ^^^ peek env data (i : Int)) a
        = (data.take n).foldl (fun r b => r ^^^ b) a := by
  intro n
  induction n with
  | zero => intro _; simp
  | succ k ih =>
    intro hk
    have hlt : k < data.length := by omega
    rw [List.range_succ, List.foldl_append, ih (by omega)]
    rw [List.take_succ, List.foldl_append]
    simp [peek_of_lt env data k hlt, List.getD_eq_getElem?_getD, List.getElem?_eq_getElem hlt]

theorem isBytes_getD (buf : List Nat) (hb : isBytes buf) (i : Nat) : buf.getD i 0 < 256 := by
  by_cases h : i < buf.length
  · rw [List.getD_eq_getElem _ _ h]
    exact hb _ (List.getElem_mem h)
  · rw [List.getD_eq_default _ _ (by omega)]
    decide

theorem SWAP16_eq (a : Nat) (h : a < 65536) : SWAP16 a = 256 * a + a / 256 := by
  unfold SWAP16
  rw [Nat.shiftLeft_eq, Nat.shiftRight_eq_div_pow]
  have hlt : a / 2 ^ 8 < 2 ^ 8 := by
    norm_num
    omega
  rw [Nat.mul_comm a (2 ^ 8), ← Nat.mul_add_lt_is_or hlt]
  norm_num

theorem SWAP16_load16_little (env : Int → Nat) (data : List Nat) (hb : isBytes data)
    (h2 : 2 ≤ data.length) :
    SWAP16 (load16 ByteOrder.little env data)
      = 65536 * data.getD 1 0 + 256 * data.getD 0 0 + data.getD 1 0 := by
  have h0 := isBytes_getD data hb 0
  have h1 := isBytes_getD data hb 1
  have e0 : peek env data 0 = data.getD 0 0 := peek_of_lt env data 0 (by omega)
  have e1 : peek env data 1 = data.getD 1 0 := peek_of_lt env data 1 (by omega)
  unfold load16
  simp only [e0, e1]
  rw [SWAP16_eq _ (by omega)]
  omega

theorem memcpy_src_eq (env : Int → Nat) (buf : List Nat) (off n : Nat)
    (h : off + n ≤ buf.length) :
    memcpy_src env buf (off : Int) n = (buf.drop off).take n := by
  unfold memcpy_src
  apply List.ext_getElem
  · simp
    omega
  · intro i h1 h2
    simp at h1
    have e : ((off : Int) + (i : Int)) = ((off + i : Nat) : Int) := by push_cast; rfl
    simp only [List.getElem_map, List.getElem_range, e]
    rw [peek_of_lt env buf (off + i) (by omega)]
    simp [List.getD_eq_getElem?_getD, List.getElem?_eq_getElem (show off + i < buf.length by omega)]

theorem parse_data_package_reject (host : ByteOrder) (env : Int → Nat) (data : List Nat)
    (package : data_package) (h : peek env data 3 ≠ 1) :
    parse_data_package host env data package
      = some (-1, { package with
          package_length := SWAP16 (load16 host env data) % 65536
          seq := peek env data 2
          package_type := peek env data 3 }) := by
  unfold parse_data_package
  simp [h]

theorem parse_data_package_abort (host : ByteOrder) (env : Int → Nat) (data : List Nat)
    (package : data_package) (h : peek env data 3 = 1)
    (hL : SWAP16 (load16 host env data) % 65536 < 5) :
    parse_data_package host env data package = none := by
  unfold parse_data_package
  generalize SWAP16 (load16 host env data) % 65536 = L at hL ⊢
  have hn : (L : Int) - 5 < 0 := by omega
  simp [h, hn]

theorem parse_data_package_accept (host : ByteOrder) (env : Int → Nat) (data : List Nat)
    (package : data_package) (h : peek env data 3 = 1)
    (hL : 5 ≤ SWAP16 (load16 host env data) % 65536) :
    parse_data_package host env data package
      = some (0,
          { package_length := SWAP16 (load16 host env data) % 65536
            seq := peek env data 2
            package_type := peek env data 3
            slice_ident := peek env data 4
            nal_data := memcpy_src env data 5 (SWAP16 (load16 host env data) % 65536 - 5)
            verify := peek env data ((SWAP16 (load16 host env data) % 65536 : Nat) : Int) }) := by
  unfold parse_data_package
  generalize SWAP16 (load16 host env data) % 65536 = L at hL ⊢
  have hn : ¬ ((L : Int) - 5 < 0) := by omega
  have ht : ((L : Int) - 5).toNat = L - 5 := by omega
  simp [h, hn, ht]

theorem unit_start_reads_head (env : Int → Nat) (data : List Nat) (i : Int) (nib : Nat) :
    i ∈ (unit_start env data i nib).2 := by
  unfold unit_start
  repeat' split
  all_goals simp

theorem unit_start_reads_lookback (env : Int → Nat) (data : List Nat) (i : Int) (nib : Nat)
    (h : peek env data i &&& 0x0f = nib) : i - 1 ∈ (unit_start env data i nib).2 := by
  unfold unit_start
  rw [if_neg (by simpa using h)]
  repeat' split
  all_goals simp

theorem loop_body_status_ne_success (env : Int → Nat) (data : List Nat) (i : Int)
    (s : ScanState) : (loop_body env data i s).status ≠ Status.STATUS_PARSE_SUCCESS := by
  unfold loop_body switch_status case_SPS case_PPS case_PPS_END
  cases hs : s.status <;> simp only [] <;> (repeat' split) <;> simp_all

theorem loop_body_reads_mono (env : Int → Nat) (data : List Nat) (i : Int)
    (s : ScanState) (x : Int) (hx : x ∈ s.reads) : x ∈ (loop_body env data i s).reads := by
  unfold loop_body switch_status case_SPS case_PPS case_PPS_END
  cases hs : s.status <;> simp only [] <;> (repeat' split) <;> simp_all

theorem loop_body_SPS_reads (env : Int → Nat) (data : List Nat) (i : Int) (s : ScanState)
    (hs : s.status = Status.STATUS_PARSE_SPS) (x : Int)
    (hx : x ∈ (unit_start env data i 0x07).2) : x ∈ (loop_body env data i s).reads := by
  unfold loop_body switch_status case_SPS case_PPS case_PPS_END
  rw [hs]
  simp only []
  repeat' split
  all_goals simp_all

theorem foldl_loop_body_reads_mono (env : Int → Nat) (data : List Nat) (x : Int) :
    ∀ (l : List Nat) (s : ScanState), x ∈ s.reads →
      x ∈ (l.foldl (fun (s : ScanState) (i : Nat) => loop_body env data (i : Int) s) s).reads := by
  intro l
  induction l with
  | nil => intro s hx; exact hx
  | cons a t ih =>
    intro s hx
    rw [List.foldl_cons]
    exact ih _ (loop_body_reads_mono env data _ s x hx)

theorem scan_status_ne_success (env : Int → Nat) (package : data_package) (status0 : Status)
    (h : status0 ≠ Status.STATUS_PARSE_SUCCESS ∨ 0 < package.package_length) :
    (scan env package status0).status ≠ Status.STATUS_PARSE_SUCCESS := by
  unfold scan
  cases hn : package.package_length with
  | zero =>
    rcases h with h | h
    · simpa [scan_init] using h
    · omega
  | succ n =>
    rw [List.range_succ, List.foldl_append]
    exact loop_body_status_ne_success env package.nal_data _ _

theorem has_sps_pps_fails (chrs_join : List Nat → List Nat → List Nat) (env : Int → Nat)
    (package : data_package) (status0 : Status)
    (h : status0 ≠ Status.STATUS_PARSE_SUCCESS ∨ 0 < package.package_length) :
    has_sps_pps chrs_join env package status0
      = some { ret := -1, sps := none, pps := none, sps_pps := none,
               reads := (scan env package status0).reads } := by
  unfold has_sps_pps
  simp only [if_neg (scan_status_ne_success env package status0 h)]

theorem scan_reads_first (env : Int → Nat) (package : data_package) (status0 : Status)
    (x : Int) (hpos : 0 < package.package_length)
    (hx : x ∈ (loop_body env package.nal_data 0 (scan_init status0)).reads) :
    x ∈ (scan env package status0).reads := by
  unfold scan
  obtain ⟨n, hn⟩ : ∃ n, package.package_length = n + 1 := ⟨package.package_length - 1, by omega⟩
  rw [hn, List.range_succ_eq_map, List.foldl_cons]
  exact foldl_loop_body_reads_mono env package.nal_data x _ _ hx

theorem foldl_xor_init (l : List Nat) :
    ∀ a : Nat, l.foldl (fun r b => r ^^^ b) a = a ^^^ l.foldl (fun r b => r ^^^ b) 0 := by
  induction l with
  | nil => intro a; simp
  | cons x t ih =>
    intro a
    rw [List.foldl_cons, List.foldl_cons, ih (a ^^^ x), ih (0 ^^^ x), Nat.zero_xor,
      Nat.xor_assoc]

theorem xorAll_cons (x : Nat) (l : List Nat) : xorAll (x :: l) = x ^^^ xorAll l := by
  unfold xorAll
  rw [List.foldl_cons, foldl_xor_init l (0 ^^^ x), Nat.zero_xor]

theorem xorAll_perm (l1 l2 : List Nat) (h : l1.Perm l2) : xorAll l1 = xorAll l2 := by
  induction h with
  | nil => rfl
  | cons x _ ih => rw [xorAll_cons, xorAll_cons, ih]
  | swap x y l =>
    rw [xorAll_cons, xorAll_cons, xorAll_cons, xorAll_cons, ← Nat.xor_assoc, ← Nat.xor_assoc,
      Nat.xor_comm y x]
  | trans _ _ ih1 ih2 => rw [ih1, ih2]

theorem xorAll_set (v : Nat) :
    ∀ (l : List Nat) (j : Nat), j < l.length →
      xorAll (l.set j v) = xorAll l ^^^ l.getD j 0 ^^^ v := by
  intro l
  induction l with
  | nil => intro j hj; simp at hj
  | cons x t ih =>
    intro j hj
    cases j with
    | zero =>
      simp only [List.set_cons_zero, xorAll_cons, List.getD_cons_zero]
      rw [Nat.xor_comm x (xorAll t), Nat.xor_assoc (xorAll t) x x, Nat.xor_self, Nat.xor_zero,
        Nat.xor_comm]
    | succ k =>
      simp only [List.set_cons_succ, xorAll_cons, List.getD_cons_succ]
      rw [ih k (by simpa using hj), Nat.xor_assoc, Nat.xor_assoc, Nat.xor_assoc]

theorem xorAll_take_set (data : List Nat) (n j v : Nat) (hj : j < n) (hn : n ≤ data.length) :
    xorAll ((data.set j v).take n) = xorAll (data.take n) ^^^ data.getD j 0 ^^^ v := by
  rw [List.set_take, xorAll_set v (data.take n) j (by rw [List.length_take]; omega)]
  have e : (data.take n).getD j 0 = data.getD j 0 := by
    rw [List.getD_eq_getElem?_getD, List.getD_eq_getElem?_getD, List.getElem?_take_of_lt hj]
  rw [e]

theorem getD_set_ne (data : List Nat) (j n v : Nat) (h : j ≠ n) :
    (data.set j v).getD n 0 = data.getD n 0 := by
  rw [List.getD_eq_getElem?_getD, List.getD_eq_getElem?_getD, List.getElem?_set_ne h]

theorem verify_eq_ite (env : Int → Nat) (data : List Nat) (n : Nat) (h : n + 1 ≤ data.length) :
    verify env data (n : Int) = if xorAll (data.take n) = data.getD n 0 then 0 else -1 := by
  unfold verify xorAll
  simp only [Int.toNat_ofNat]
  simp only [foldl_range_peek env data 0 n (by omega), peek_of_lt env data n (by omega)]
  by_cases hx : (data.take n).foldl (fun r b => r ^^^ b) 0 = data.getD n 0
  · simp [hx]
  · simp [hx]

theorem xor_pow_ne_self (x b : Nat) : x ^^^ 2 ^ b ≠ x := by
  intro h
  have h2 : x ^^^ (x ^^^ 2 ^ b) = x ^^^ x := by rw [h]
  rw [Nat.xor_cancel_left, Nat.xor_self] at h2
  exact absurd h2 (by positivity)

theorem xor_pair_cancel (x a c m : Nat) : x ^^^ a ^^^ (a ^^^ m) ^^^ c ^^^ (c ^^^ m) = x := by
  rw [Nat.xor_assoc x a, Nat.xor_cancel_left, Nat.xor_assoc (x ^^^ m) c, Nat.xor_cancel_left,
    Nat.xor_assoc, Nat.xor_self, Nat.xor_zero]

theorem getD_set_self (data : List Nat) (j v : Nat) (h : j < data.length) :
    (data.set j v).getD j 0 = v := by
  rw [List.getD_eq_getElem?_getD, List.getElem?_set_self h]
  rfl

theorem isBytes_set (data : List Nat) (j v : Nat) (hb : isBytes data) (hv : v < 256) :
    isBytes (data.set j v) := by
  intro x hx
  rcases List.mem_or_eq_of_mem_set hx with h | h
  · exact hb x h
  · rw [h]; exact hv

theorem xor_bit_lt (d b : Nat) (hd : d < 256) (hb : b < 8) : d ^^^ 2 ^ b < 256 := by
  have h2 : 2 ^ b < 2 ^ 8 := Nat.pow_lt_pow_right (by decide) hb
  exact Nat.xor_lt_two_pow (show d < 2 ^ 8 from hd) h2

theorem peek_sub (env : Int → Nat) (buf : List Nat) (i k : Nat) (hk : k ≤ i)
    (hi : i < buf.length) : peek env buf ((i : Int) - (k : Int)) = buf.getD (i - k) 0 := by
  have e : (i : Int) - (k : Int) = ((i - k : Nat) : Int) := by omega
  rw [e]
  exact peek_of_lt env buf (i - k) (by omega)

theorem unit_start_of_unit_at (env : Int → Nat) (nal : List Nat) (i nib : Nat)
    (hsc : start_code_before nal i = true) (hnib : nal.getD i 0 &&& 0x0f = nib) :
    unit_start env nal (i : Int) nib
      = (true, [(i : Int), (i : Int) - 1, (i : Int) - 2, (i : Int) - 3, (i : Int) - 4]) := by
  unfold start_code_before at hsc
  simp only [decide_eq_true_eq] at hsc
  obtain ⟨h4, hlt, b4, b3, b2, b1⟩ := hsc
  have e0 : peek env nal (i : Int) = nal.getD i 0 := peek_of_lt env nal i hlt
  have e1 : peek env nal ((i : Int) - 1) = nal.getD (i - 1) 0 :=
    peek_sub env nal i 1 (by omega) hlt
  have e2 : peek env nal ((i : Int) - 2) = nal.getD (i - 2) 0 :=
    peek_sub env nal i 2 (by omega) hlt
  have e3 : peek env nal ((i : Int) - 3) = nal.getD (i - 3) 0 :=
    peek_sub env nal i 3 (by omega) hlt
  have e4 : peek env nal ((i : Int) - 4) = nal.getD (i - 4) 0 :=
    peek_sub env nal i 4 (by omega) hlt
  unfold unit_start
  rw [e0, e1, e2, e3, e4, b1, b2, b3, b4, hnib]
  simp

theorem loop_body_of_not_continue (env : Int → Nat) (data : List Nat) (i : Int)
    (s : ScanState) (h : (switch_status env data i s).2 = false) :
    (loop_body env data i s).status = Status.STATUS_PARSE_ERROR := by
  unfold loop_body
  simp [h]

theorem switch_status_success_not_continue (env : Int → Nat) (data : List Nat) (i : Int)
    (s : ScanState)
    (h : (switch_status env data i s).1.status = Status.STATUS_PARSE_SUCCESS) :
    (switch_status env data i s).2 = false := by
  revert h
  unfold switch_status case_SPS case_PPS case_PPS_END
  cases hs : s.status <;> simp only [] <;> (repeat' split) <;> simp_all

theorem loop_body_error (env : Int → Nat) (data : List Nat) (i : Int) (s : ScanState)
    (h : s.status = Status.STATUS_PARSE_ERROR) : loop_body env data i s = s := by
  unfold loop_body switch_status
  rw [h]
  cases s
  simp_all

theorem loop_body_SPS_match (env : Int → Nat) (nal : List Nat) (i : Nat) (s : ScanState)
    (hs : s.status = Status.STATUS_PARSE_SPS)
    (hsc : start_code_before nal i = true) (hnib : nal.getD i 0 &&& 0x0f = 0x07) :
    loop_body env nal (i : Int) s
      = { s with sps_offset := (i : Int) + 1, status := Status.STATUS_PARSE_PPS,
                 reads := s.reads
                   ++ [(i : Int), (i : Int) - 1, (i : Int) - 2, (i : Int) - 3, (i : Int) - 4] } := by
  unfold loop_body switch_status case_SPS
  rw [hs]
  simp [unit_start_of_unit_at env nal i 0x07 hsc hnib]

theorem loop_body_PPS_match (env : Int → Nat) (nal : List Nat) (i : Nat) (s : ScanState)
    (hs : s.status = Status.STATUS_PARSE_PPS)
    (hsc : start_code_before nal i = true) (hnib : nal.getD i 0 &&& 0x0f = 0x08) :
    loop_body env nal (i : Int) s
      = { s with pps_offset := (i : Int) + 1, sps_size := ((i : Int) + 1) - s.sps_offset - 5,
                 status := Status.STATUS_PARSE_PPS_END,
                 reads := s.reads
                   ++ [(i : Int), (i : Int) - 1, (i : Int) - 2, (i : Int) - 3, (i : Int) - 4] } := by
  unfold loop_body switch_status case_PPS
  rw [hs]
  simp [unit_start_of_unit_at env nal i 0x08 hsc hnib]

theorem parse_data_package_reads_in_bounds (host : ByteOrder) (env : Int → Nat)
    (data : List Nat) (h : peek env data 3 = 1)
    (hL : 5 ≤ SWAP16 (load16 host env data) % 65536)
    (hlen : SWAP16 (load16 host env data) % 65536 + 1 ≤ data.length) :
    (parse_data_package_reads host env data).all (in_bounds data) = true := by
  unfold parse_data_package_reads
  generalize SWAP16 (load16 host env data) % 65536 = L at hL hlen ⊢
  have hn : ¬ ((L : Int) - 5 < 0) := by omega
  rw [if_neg (by simp [h]), if_neg hn]
  rw [List.all_eq_true]
  intro k hk
  unfold in_bounds
  simp only [decide_eq_true_eq]
  simp only [List.mem_append, List.mem_cons, List.mem_singleton, List.mem_map, List.mem_range,
    List.not_mem_nil, or_false] at hk
  rcases hk with (hk | hk | hk | hk) | hk | ⟨a, ha, hk⟩ | hk <;> omega

theorem parse_data_package_run_returns_zero (host : ByteOrder) (env : Int → Nat)
    (data : List Nat) (package : data_package) (h : peek env data 3 = 1)
    (r : Int) (p : data_package)
    (hrun : parse_data_package_run host env data package = Outcome.returns (r, p)) :
    r = 0 := by
  unfold parse_data_package_run at hrun
  split at hrun
  · by_cases hL : SWAP16 (load16 host env data) % 65536 < 5
    · rw [parse_data_package_abort host env data package h hL] at hrun
      exact Outcome.noConfusion hrun
    · rw [parse_data_package_accept host env data package h (by omega)] at hrun
      have e := congrArg Prod.fst (Outcome.returns.inj hrun)
      exact e.symm
  · exact Outcome.noConfusion hrun

theorem has_sps_pps_run_undefined (chrs_join : List Nat → List Nat → List Nat)
    (env : Int → Nat) (package : data_package) (status0 : Status)
    (h : status0 ≠ Status.STATUS_PARSE_SUCCESS ∨ 0 < package.package_length)
    (k : Int) (hk : k ∈ (scan env package status0).reads)
    (hout : in_bounds package.nal_data k = false) :
    has_sps_pps_run chrs_join env package status0 = Outcome.undefined := by
  unfold has_sps_pps_run
  rw [has_sps_pps_fails chrs_join env package status0 h]
  have hall : ¬ ((scan env package status0).reads.all (in_bounds package.nal_data) = true) := by
    rw [List.all_eq_true]
    intro hall
    have := hall k hk
    rw [hout] at this
    exact Bool.noConfusion this
  simp only [if_neg hall]

theorem has_sps_pps_run_returns (chrs_join : List Nat → List Nat → List Nat)
    (env : Int → Nat) (package : data_package) (status0 : Status)
    (h : status0 ≠ Status.STATUS_PARSE_SUCCESS ∨ 0 < package.package_length)
    (hin : (scan env package status0).reads.all (in_bounds package.nal_data) = true) :
    has_sps_pps_run chrs_join env package status0
      = Outcome.returns { ret := -1, sps := none, pps := none, sps_pps := none,
                          reads := (scan env package status0).reads } := by
  unfold has_sps_pps_run
  rw [has_sps_pps_fails chrs_join env package status0 h]
  simp only [if_pos hin]

/-! ## Theorems -/

/-- C1: for a buffer holding at least `n+1` bytes, `verify data n` returns `0`
exactly when the XOR of the bytes `data[0..n-1]` equals the byte `data[n]`,
and returns `-1` otherwise. -/
theorem verify_returns_zero_iff_xor_matches (env : Int → Nat) (data : List Nat) (n : Nat)
    (h : n + 1 ≤ data.length) :
    (verify env data (n : Int) = 0 ↔ xorAll (data.take n) = data.getD n 0) ∧
    (verify env data (n : Int) = -1 ↔ xorAll (data.take n) ≠ data.getD n 0) := by
  have hn : n < data.length := by omega
  unfold verify xorAll
  simp only [Int.toNat_ofNat]
  simp only [foldl_range_peek env data 0 n (by omega), peek_of_lt env data n hn]
  by_cases hx : (data.take n).foldl (fun r b => r ^^^ b) 0 = data.getD n 0
  · simp [hx]
  · simp [hx]

/-- Witness for C1: the frame `00 05 00 01 02 06` with `n = 5`. -/
theorem verify_returns_zero_iff_xor_matches_witness :
    (5 + 1 ≤ [0, 5, 0, 1, 2, 6].length) ∧
    ((verify (fun _ => 0) [0, 5, 0, 1, 2, 6] ((5 : Nat) : Int) = 0
        ↔ xorAll ([0, 5, 0, 1, 2, 6].take 5) = [0, 5, 0, 1, 2, 6].getD 5 0) ∧
     (verify (fun _ => 0) [0, 5, 0, 1, 2, 6] ((5 : Nat) : Int) = -1
        ↔ xorAll ([0, 5, 0, 1, 2, 6].take 5) ≠ [0, 5, 0, 1, 2, 6].getD 5 0)) :=
  ⟨by decide, verify_returns_zero_iff_xor_matches (fun _ => 0) [0, 5, 0, 1, 2, 6] 5 (by decide)⟩

/-- C2: on a little-endian host, for a frame of bytes whose byte 3 is `0x01`,
whose declared length `L = 256*byte0 + byte1` is at least 5 and which holds at
least `L+1` bytes, `parse_data_package` returns 0 and the scalar fields come
from the wire offsets: `package_length = L`, `seq` = byte 2, `package_type` =
byte 3, `slice_ident` = byte 4 and `verify` = the byte at offset `L` of the
frame. -/
theorem parse_data_package_reads_wire_offsets (env : Int → Nat) (data : List Nat)
    (package : data_package) (hb : isBytes data)
    (ht : data.getD 3 0 = 1)
    (hL : 5 ≤ 256 * data.getD 0 0 + data.getD 1 0)
    (hlen : 256 * data.getD 0 0 + data.getD 1 0 + 1 ≤ data.length) :
    ∃ p, parse_data_package ByteOrder.little env data package = some (0, p)
      ∧ p.package_length = 256 * data.getD 0 0 + data.getD 1 0
      ∧ p.seq = data.getD 2 0
      ∧ p.package_type = data.getD 3 0
      ∧ p.slice_ident = data.getD 4 0
      ∧ p.verify = data.getD (256 * data.getD 0 0 + data.getD 1 0) 0 := by
  have h0 := isBytes_getD data hb 0
  have h1 := isBytes_getD data hb 1
  have hS : SWAP16 (load16 ByteOrder.little env data) % 65536
      = 256 * data.getD 0 0 + data.getD 1 0 := by
    rw [SWAP16_load16_little env data hb (by omega)]
    omega
  have e2 : peek env data 2 = data.getD 2 0 := peek_of_lt env data 2 (by omega)
  have e3 : peek env data 3 = data.getD 3 0 := peek_of_lt env data 3 (by omega)
  have e4 : peek env data 4 = data.getD 4 0 := peek_of_lt env data 4 (by omega)
  have eL := peek_of_lt env data (256 * data.getD 0 0 + data.getD 1 0) (by omega)
  refine ⟨_, parse_data_package_accept ByteOrder.little env data package (by rw [e3, ht])
    (by rw [hS]; exact hL), ?_, ?_, ?_, ?_, ?_⟩
  · exact hS
  · exact e2
  · exact e3
  · exact e4
  · simp only [hS]
    exact eL

/-- Witness for C2: the frame `00 08 07 01 02 0a 0b 0c 06`. -/
theorem parse_data_package_reads_wire_offsets_witness :
    ∃ p, parse_data_package ByteOrder.little (fun _ => 0) [0, 8, 7, 1, 2, 10, 11, 12, 6]
        ⟨0, 0, 0, 0, [], 0⟩ = some (0, p)
      ∧ p.package_length = 256 * [0, 8, 7, 1, 2, 10, 11, 12, 6].getD 0 0
          + [0, 8, 7, 1, 2, 10, 11, 12, 6].getD 1 0
      ∧ p.seq = [0, 8, 7, 1, 2, 10, 11, 12, 6].getD 2 0
      ∧ p.package_type = [0, 8, 7, 1, 2, 10, 11, 12, 6].getD 3 0
      ∧ p.slice_ident = [0, 8, 7, 1, 2, 10, 11, 12, 6].getD 4 0
      ∧ p.verify = [0, 8, 7, 1, 2, 10, 11, 12, 6].getD
          (256 * [0, 8, 7, 1, 2, 10, 11, 12, 6].getD 0 0
            + [0, 8, 7, 1, 2, 10, 11, 12, 6].getD 1 0) 0 :=
  parse_data_package_reads_wire_offsets (fun _ => 0) [0, 8, 7, 1, 2, 10, 11, 12, 6]
    ⟨0, 0, 0, 0, [], 0⟩ (by decide) (by decide) (by decide) (by decide)

/-- C3: on a little-endian host, for a frame of bytes with `package_type` 0x01,
declared length `L ≥ 5` and at least `L+1` bytes, `parse_data_package` succeeds
and `nal_data` is a buffer of exactly `L-5` bytes equal to the frame bytes
`[5, L)`, whatever `nal_data` the packet held before; the frame
`00 05 00 01 02 06` parses with empty `nal_data`. -/
theorem parse_data_package_copies_nal_data (env : Int → Nat) (data : List Nat)
    (package : data_package) (hb : isBytes data)
    (ht : data.getD 3 0 = 1)
    (hL : 5 ≤ 256 * data.getD 0 0 + data.getD 1 0)
    (hlen : 256 * data.getD 0 0 + data.getD 1 0 + 1 ≤ data.length) :
    (∃ p, parse_data_package ByteOrder.little env data package = some (0, p)
      ∧ p.nal_data.length = 256 * data.getD 0 0 + data.getD 1 0 - 5
      ∧ p.nal_data = (data.drop 5).take (256 * data.getD 0 0 + data.getD 1 0 - 5))
    ∧ (∃ q, parse_data_package ByteOrder.little env [0, 5, 0, 1, 2, 6] package = some (0, q)
      ∧ q.nal_data = []) := by
  have h0 := isBytes_getD data hb 0
  have h1 := isBytes_getD data hb 1
  have hS : SWAP16 (load16 ByteOrder.little env data) % 65536
      = 256 * data.getD 0 0 + data.getD 1 0 := by
    rw [SWAP16_load16_little env data hb (by omega)]
    omega
  have e3 : peek env data 3 = data.getD 3 0 := peek_of_lt env data 3 (by omega)
  have hcopy : memcpy_src env data ((5 : Nat) : Int) (256 * data.getD 0 0 + data.getD 1 0 - 5)
      = (data.drop 5).take (256 * data.getD 0 0 + data.getD 1 0 - 5) :=
    memcpy_src_eq env data 5 _ (by omega)
  refine ⟨⟨_, parse_data_package_accept ByteOrder.little env data package (by rw [e3, ht])
    (by rw [hS]; exact hL), ?_, ?_⟩, ?_⟩
  · simp only [hS]
    rw [show ((5 : Int)) = ((5 : Nat) : Int) from rfl, hcopy]
    rw [List.length_take, List.length_drop]
    omega
  · simp only [hS]
    rw [show ((5 : Int)) = ((5 : Nat) : Int) from rfl, hcopy]
  · have hS5 : SWAP16 (load16 ByteOrder.little env [0, 5, 0, 1, 2, 6]) % 65536 = 5 := by
      rw [SWAP16_load16_little env _ (by decide) (by decide)]
      rfl
    refine ⟨_, parse_data_package_accept ByteOrder.little env [0, 5, 0, 1, 2, 6] package
      (peek_of_lt env _ 3 (by decide)) (by rw [hS5]), ?_⟩
    simp only [hS5]
    rfl

/-- Witness for C3: the frame `00 08 07 01 02 0a 0b 0c 06`, whose `nal_data`
is `0a 0b 0c`. -/
theorem parse_data_package_copies_nal_data_witness :
    (∃ p, parse_data_package ByteOrder.little (fun _ => 0) [0, 8, 7, 1, 2, 10, 11, 12, 6]
        ⟨0, 0, 0, 0, [1, 2], 0⟩ = some (0, p)
      ∧ p.nal_data.length = 256 * [0, 8, 7, 1, 2, 10, 11, 12, 6].getD 0 0
          + [0, 8, 7, 1, 2, 10, 11, 12, 6].getD 1 0 - 5
      ∧ p.nal_data = ([0, 8, 7, 1, 2, 10, 11, 12, 6].drop 5).take
          (256 * [0, 8, 7, 1, 2, 10, 11, 12, 6].getD 0 0
            + [0, 8, 7, 1, 2, 10, 11, 12, 6].getD 1 0 - 5))
    ∧ (∃ q, parse_data_package ByteOrder.little (fun _ => 0) [0, 5, 0, 1, 2, 6]
        ⟨0, 0, 0, 0, [1, 2], 0⟩ = some (0, q) ∧ q.nal_data = []) :=
  parse_data_package_copies_nal_data (fun _ => 0) [0, 8, 7, 1, 2, 10, 11, 12, 6]
    ⟨0, 0, 0, 0, [1, 2], 0⟩ (by decide) (by decide) (by decide) (by decide)

/-- C4: for every buffer whose byte at offset 3 is not `0x01`, on either host
byte order and whatever the other bytes are, `parse_data_package` returns `-1`
and leaves the packet's `nal_data`, `slice_ident` and `verify` as they were. -/
theorem parse_data_package_rejects_other_types (host : ByteOrder) (env : Int → Nat)
    (data : List Nat) (package : data_package)
    (h4 : 4 ≤ data.length) (ht : data.getD 3 0 ≠ 1) :
    ∃ p, parse_data_package host env data package = some (-1, p)
      ∧ p.nal_data = package.nal_data
      ∧ p.slice_ident = package.slice_ident
      ∧ p.verify = package.verify := by
  have e3 : peek env data 3 = data.getD 3 0 := peek_of_lt env data 3 (by omega)
  exact ⟨_, parse_data_package_reject host env data package (by rw [e3]; exact ht),
    rfl, rfl, rfl⟩

/-- Witness for C4: a frame with `package_type` 0x02. -/
theorem parse_data_package_rejects_other_types_witness :
    ∃ p, parse_data_package ByteOrder.little (fun _ => 0) [0, 5, 0, 2, 2, 5]
        ⟨0, 0, 0, 9, [1, 2], 7⟩ = some (-1, p)
      ∧ p.nal_data = [1, 2] ∧ p.slice_ident = 9 ∧ p.verify = 7 :=
  parse_data_package_rejects_other_types ByteOrder.little (fun _ => 0) [0, 5, 0, 2, 2, 5]
    ⟨0, 0, 0, 9, [1, 2], 7⟩ (by decide) (by decide)

/-- C6, the code at the failing input: for the two bytes `00 05` (big-endian
length 5) `get_valid_data_length` returns 327685 on a little-endian host and
1280 on a big-endian host, on neither the length 5. -/
theorem get_valid_data_length_not_big_endian_value :
    get_valid_data_length ByteOrder.little (fun _ => 0) [0, 5] = 327685
    ∧ get_valid_data_length ByteOrder.big (fun _ => 0) [0, 5] = 1280
    ∧ 256 * [0, 5].getD 0 0 + [0, 5].getD 1 0 = 5 := by
  decide

/-- C7: `get_data_package_slice_ident_type` returns `slice_ident & 0x03`, which
is the code of one of the four `slice_type` values; two packets whose
`slice_ident` agree on the low two bits classify alike, whatever their other
fields; and `slice_ident = 0x02` gives `SLICE_TYPE_FIRST`. -/
theorem slice_ident_type_is_low_two_bits (p q : data_package) :
    get_data_package_slice_ident_type p = ((p.slice_ident &&& 0x03 : Nat) : Int)
    ∧ (∃ t : slice_type, get_data_package_slice_ident_type p = t.toInt)
    ∧ (p.slice_ident &&& 0x03 = q.slice_ident &&& 0x03 →
        get_data_package_slice_ident_type p = get_data_package_slice_ident_type q)
    ∧ (p.slice_ident = 0x02 →
        get_data_package_slice_ident_type p = slice_type.SLICE_TYPE_FIRST.toInt) := by
  refine ⟨rfl, ?_, ?_, ?_⟩
  · unfold get_data_package_slice_ident_type
    have hm : p.slice_ident &&& 0x03 = p.slice_ident % 4 :=
      Nat.and_pow_two_sub_one_eq_mod p.slice_ident 2
    rw [hm]
    have h4 : p.slice_ident % 4 < 4 := Nat.mod_lt _ (by decide)
    generalize p.slice_ident % 4 = r at h4
    interval_cases r
    · exact ⟨slice_type.SLICE_TYPE_INTER, rfl⟩
    · exact ⟨slice_type.SLICE_TYPE_LAST, rfl⟩
    · exact ⟨slice_type.SLICE_TYPE_FIRST, rfl⟩
    · exact ⟨slice_type.SLICE_TYPE_NONE, rfl⟩
  · intro h
    unfold get_data_package_slice_ident_type
    rw [h]
  · intro h
    unfold get_data_package_slice_ident_type
    rw [h]
    rfl

/-- Witness for C7: `slice_ident` 0x02 and 0xfe agree on the low two bits, in
packets that differ in every other field. -/
theorem slice_ident_type_is_low_two_bits_witness :
    get_data_package_slice_ident_type ⟨5, 0, 1, 0x02, [], 6⟩
        = get_data_package_slice_ident_type ⟨9, 3, 1, 0xfe, [1, 2, 3, 4], 0⟩
    ∧ get_data_package_slice_ident_type ⟨5, 0, 1, 0x02, [], 6⟩
        = slice_type.SLICE_TYPE_FIRST.toInt :=
  ⟨(slice_ident_type_is_low_two_bits ⟨5, 0, 1, 0x02, [], 6⟩
      ⟨9, 3, 1, 0xfe, [1, 2, 3, 4], 0⟩).2.2.1 (by decide),
   (slice_ident_type_is_low_two_bits ⟨5, 0, 1, 0x02, [], 6⟩
      ⟨9, 3, 1, 0xfe, [1, 2, 3, 4], 0⟩).2.2.2 rfl⟩

/-- C8, the code at the round-trip input: started in `STATUS_PARSE_SPS` on a
round-trip buffer, with any type bytes and any `sps` and `pps` content,
`has_sps_pps` returns `-1` and assigns neither `sps` nor `pps`; so it does for
`00 00 00 01 67 42 00 00 00 01 68 ce 00 00 00 01 65`. -/
theorem has_sps_pps_round_trip_fails (chrs_join : List Nat → List Nat → List Nat)
    (env : Int → Nat) (sps_type : Nat) (sps : List Nat) (pps_type : Nat) (pps : List Nat)
    (next_unit : Nat) :
    (∃ r, has_sps_pps chrs_join env
        (packet_of_nal (round_trip_nal sps_type sps pps_type pps next_unit))
        Status.STATUS_PARSE_SPS = some r
      ∧ r.ret = -1 ∧ r.sps = none ∧ r.pps = none)
    ∧ has_sps_pps chrs_join (fun _ => 0)
        (packet_of_nal (round_trip_nal 0x67 [0x42] 0x68 [0xce] 0x65))
        Status.STATUS_PARSE_SPS
      = some { ret := -1, sps := none, pps := none, sps_pps := none, reads := [0, 0, 0] } := by
  refine ⟨⟨_, has_sps_pps_fails chrs_join env _ _ (Or.inl (by decide)), rfl, rfl, rfl⟩, ?_⟩
  rw [has_sps_pps_fails chrs_join _ _ _ (Or.inl (by decide))]
  decide

/-- C10, the code at the failing inputs: started in `STATUS_PARSE_SPS` on the
one-byte `nal_data` `07` (`package_length` 6), `has_sps_pps` reads index `-1`;
on the empty `nal_data` (`package_length` 5) it reads index `0`; whatever the
memory around the buffer holds. -/
theorem has_sps_pps_reads_outside_nal_data (chrs_join : List Nat → List Nat → List Nat)
    (env : Int → Nat) :
    (∃ r, has_sps_pps chrs_join env (packet_of_nal [0x07]) Status.STATUS_PARSE_SPS = some r
      ∧ (-1 : Int) ∈ r.reads)
    ∧ (∃ r, has_sps_pps chrs_join env (packet_of_nal []) Status.STATUS_PARSE_SPS = some r
      ∧ (0 : Int) ∈ r.reads ∧ ¬ ((0 : Int) < (([] : List Nat).length : Int))) := by
  refine ⟨⟨_, has_sps_pps_fails chrs_join env _ _ (Or.inl (by decide)), ?_⟩,
    ⟨_, has_sps_pps_fails chrs_join env _ _ (Or.inl (by decide)), ?_, by decide⟩⟩
  · apply scan_reads_first env _ _ _ (by decide)
    apply loop_body_SPS_reads env _ _ _ rfl
    have h := unit_start_reads_lookback env [0x07] 0 0x07 (by simp [peek]; decide)
    simpa using h
  · apply scan_reads_first env _ _ _ (by decide)
    apply loop_body_SPS_reads env _ _ _ rfl
    exact unit_start_reads_head env [] 0 0x07

/-- C11: single-bit error detection of `verify`: when the buffer holds at least
`n+1` bytes and `verify data n` returns 0, flipping bit `b` (0..7) of a byte
`j < n`, the checksum byte left as it is, gives a buffer of bytes on which
`verify` returns `-1`. -/
theorem verify_detects_single_bit_flip (env : Int → Nat) (data : List Nat) (n j b : Nat)
    (hbytes : isBytes data) (hlen : n + 1 ≤ data.length)
    (hok : verify env data (n : Int) = 0) (hj : j < n) (hb : b < 8) :
    isBytes (flip_bit data j b)
    ∧ (flip_bit data j b).getD n 0 = data.getD n 0
    ∧ verify env (flip_bit data j b) (n : Int) = -1 := by
  have hx : xorAll (data.take n) = data.getD n 0 := by
    by_contra hne
    rw [verify_eq_ite env data n hlen, if_neg hne] at hok
    exact absurd hok (by decide)
  have hlast : (flip_bit data j b).getD n 0 = data.getD n 0 :=
    getD_set_ne data j n _ (by omega)
  refine ⟨isBytes_set data j _ hbytes (xor_bit_lt _ b (isBytes_getD data hbytes j) hb),
    hlast, ?_⟩
  rw [verify_eq_ite env (flip_bit data j b) n (by unfold flip_bit; rw [List.length_set]; exact hlen),
    hlast]
  unfold flip_bit
  rw [xorAll_take_set data n j _ hj (by omega), Nat.xor_assoc, Nat.xor_cancel_left, hx]
  rw [if_neg (xor_pow_ne_self _ b)]

/-- Witness for C11: the frame `00 05 00 01 02 06` with bit 3 of byte 4
flipped. -/
theorem verify_detects_single_bit_flip_witness :
    verify (fun _ => 0) [0, 5, 0, 1, 2, 6] ((5 : Nat) : Int) = 0
    ∧ isBytes (flip_bit [0, 5, 0, 1, 2, 6] 4 3)
    ∧ (flip_bit [0, 5, 0, 1, 2, 6] 4 3).getD 5 0 = [0, 5, 0, 1, 2, 6].getD 5 0
    ∧ verify (fun _ => 0) (flip_bit [0, 5, 0, 1, 2, 6] 4 3) ((5 : Nat) : Int) = -1 :=
  ⟨by decide,
   verify_detects_single_bit_flip (fun _ => 0) [0, 5, 0, 1, 2, 6] 5 4 3 (by decide) (by decide)
    (by decide) (by decide) (by decide)⟩

/-- C17: even cancellation of `verify`: for a buffer of at least `n+1` bytes,
a bit position `b` in 0..7 and two distinct indices `j`, `k` below `n`,
flipping bit `b` in byte `j` and in byte `k` gives a buffer of bytes with the
same result of `verify`; a frame that verified still verifies. -/
theorem verify_blind_to_paired_bit_flips (env : Int → Nat) (data : List Nat)
    (n j k b : Nat) (hbytes : isBytes data) (hlen : n + 1 ≤ data.length)
    (hj : j < n) (hk : k < n) (hjk : j ≠ k) (hb : b < 8) :
    isBytes (flip_bit_pair data j k b)
    ∧ verify env (flip_bit_pair data j k b) (n : Int) = verify env data (n : Int)
    ∧ (verify env data (n : Int) = 0 →
        verify env (flip_bit_pair data j k b) (n : Int) = 0) := by
  have hl1 : n + 1 ≤ (data.set j (data.getD j 0 ^^^ 2 ^ b)).length := by
    rw [List.length_set]; exact hlen
  have heq : verify env (flip_bit_pair data j k b) (n : Int) = verify env data (n : Int) := by
    rw [verify_eq_ite env (flip_bit_pair data j k b) n
      (by unfold flip_bit_pair; rw [List.length_set]; exact hl1),
      verify_eq_ite env data n hlen]
    unfold flip_bit_pair
    rw [getD_set_ne _ k n _ (by omega), getD_set_ne _ j n _ (by omega),
      xorAll_take_set _ n k _ hk (by omega), getD_set_ne _ j k _ hjk,
      xorAll_take_set data n j _ hj (by omega), xor_pair_cancel]
  refine ⟨?_, heq, fun h0 => by rw [heq]; exact h0⟩
  exact isBytes_set _ k _
    (isBytes_set data j _ hbytes (xor_bit_lt _ b (isBytes_getD data hbytes j) hb))
    (xor_bit_lt _ b (isBytes_getD data hbytes k) hb)

/-- Witness for C17: the frame `00 05 00 01 02 06` with bit 3 flipped in
bytes 1 and 4 still verifies. -/
theorem verify_blind_to_paired_bit_flips_witness :
    flip_bit_pair [0, 5, 0, 1, 2, 6] 1 4 3 = [0, 13, 0, 1, 10, 6]
    ∧ verify (fun _ => 0) [0, 5, 0, 1, 2, 6] ((5 : Nat) : Int) = 0
    ∧ verify (fun _ => 0) (flip_bit_pair [0, 5, 0, 1, 2, 6] 1 4 3) ((5 : Nat) : Int) = 0 :=
  ⟨by decide, by decide,
   (verify_blind_to_paired_bit_flips (fun _ => 0) [0, 5, 0, 1, 2, 6] 5 1 4 3 (by decide)
    (by decide) (by decide) (by decide) (by decide) (by decide)).2.2 (by decide)⟩

/-- C18: transposition weakness of `verify`: for buffers `data` and `data2` of
at least `n+1` bytes whose first `n` bytes are permutations of each other and
whose byte `n` is the same, `verify` returns the same result on both; so it
does when two bytes at indices below `n` are exchanged. -/
theorem verify_blind_to_permutation (env : Int → Nat) (data data2 : List Nat) (n j k : Nat)
    (hlen : n + 1 ≤ data.length) (hlen2 : n + 1 ≤ data2.length)
    (hperm : (data2.take n).Perm (data.take n)) (hlast : data2.getD n 0 = data.getD n 0)
    (hj : j < n) (hk : k < n) :
    verify env data2 (n : Int) = verify env data (n : Int)
    ∧ verify env (swap_bytes data j k) (n : Int) = verify env data (n : Int) := by
  constructor
  · rw [verify_eq_ite env data2 n hlen2, verify_eq_ite env data n hlen,
      xorAll_perm _ _ hperm, hlast]
  · have hl1 : n + 1 ≤ (data.set j (data.getD k 0)).length := by
      rw [List.length_set]; exact hlen
    have hk2 : (data.set j (data.getD k 0)).getD k 0 = data.getD k 0 := by
      by_cases hjk : j = k
      · rw [hjk]
        exact getD_set_self data k _ (by omega)
      · exact getD_set_ne data j k _ hjk
    rw [verify_eq_ite env (swap_bytes data j k) n
      (by unfold swap_bytes; rw [List.length_set]; exact hl1),
      verify_eq_ite env data n hlen]
    unfold swap_bytes
    rw [getD_set_ne _ k n _ (by omega), getD_set_ne _ j n _ (by omega),
      xorAll_take_set _ n k _ hk (by omega), hk2,
      xorAll_take_set data n j _ hj (by omega)]
    have e : xorAll (data.take n) ^^^ data.getD j 0 ^^^ data.getD k 0 ^^^ data.getD k 0
        ^^^ data.getD j 0 = xorAll (data.take n) := by
      rw [Nat.xor_assoc (xorAll (data.take n) ^^^ data.getD j 0), Nat.xor_self, Nat.xor_zero,
        Nat.xor_assoc, Nat.xor_self, Nat.xor_zero]
    rw [e]

/-- Witness for C18: the frame `00 05 00 01 02 06` with its first five bytes
reversed, and with bytes 1 and 4 exchanged. -/
theorem verify_blind_to_permutation_witness :
    verify (fun _ => 0) [2, 1, 0, 5, 0, 6] ((5 : Nat) : Int)
        = verify (fun _ => 0) [0, 5, 0, 1, 2, 6] ((5 : Nat) : Int)
    ∧ verify (fun _ => 0) (swap_bytes [0, 5, 0, 1, 2, 6] 1 4) ((5 : Nat) : Int)
        = verify (fun _ => 0) [0, 5, 0, 1, 2, 6] ((5 : Nat) : Int) :=
  verify_blind_to_permutation (fun _ => 0) [0, 5, 0, 1, 2, 6] [2, 1, 0, 5, 0, 6] 5 1 4
    (by decide) (by decide) (by decide) (by decide) (by decide) (by decide)

/-- C12, the code at the failing input: for the frame `00 05 00 01 02 06` on a
little-endian host `parse_data_package` accepts and stores `package_length` 5,
while `get_valid_data_length` returns 327685 for the same buffer. -/
theorem parse_length_differs_from_get_valid_data_length :
    parse_data_package ByteOrder.little (fun _ => 0) [0, 5, 0, 1, 2, 6] ⟨0, 0, 0, 0, [], 0⟩
      = some (0, ⟨5, 0, 1, 2, [], 6⟩)
    ∧ get_valid_data_length ByteOrder.little (fun _ => 0) [0, 5, 0, 1, 2, 6] = 327685 := by
  decide

/-- C14, the code at the failing inputs: on the round-trip buffer
`00 00 00 01 67 42 00 00 00 01 68 ce 00 00 00 01 65`, one iteration at a
position that does not match the pattern of the state leaves the state for
`STATUS_PARSE_ERROR`: at `i = 0` from `STATUS_PARSE_SPS`, at `i = 5` from
`STATUS_PARSE_PPS`, at `i = 11` from `STATUS_PARSE_PPS_END`. -/
theorem scan_step_mismatch_gives_error :
    (loop_body (fun _ => 0) (round_trip_nal 0x67 [0x42] 0x68 [0xce] 0x65) 0
        (scan_state Status.STATUS_PARSE_SPS 0 0 0 0)).status = Status.STATUS_PARSE_ERROR
    ∧ (loop_body (fun _ => 0) (round_trip_nal 0x67 [0x42] 0x68 [0xce] 0x65) 5
        (scan_state Status.STATUS_PARSE_PPS 5 0 0 0)).status = Status.STATUS_PARSE_ERROR
    ∧ (loop_body (fun _ => 0) (round_trip_nal 0x67 [0x42] 0x68 [0xce] 0x65) 11
        (scan_state Status.STATUS_PARSE_PPS_END 5 11 1 0)).status
      = Status.STATUS_PARSE_ERROR := by
  decide

/-- C15, the code at the failing inputs: in `STATUS_PARSE_PPS_END` with
`pps_offset = 11` and `sps_size = 1`, at `i = 17` after the start code of
`00 00 00 01 67 42 00 00 00 01 68 ce 3c 00 00 00 01 65`, one iteration ends in
`STATUS_PARSE_ERROR` with `pps_size` still 0; when the byte at `i` is `68`
instead, it ends in `STATUS_PARSE_ERROR` with `sps_size` overwritten by
`17 - 11 - 4 = 2` and `pps_size` still 0. -/
theorem scan_step_pps_end_never_sets_pps_size :
    loop_body (fun _ => 0) (round_trip_nal 0x67 [0x42] 0x68 [0xce, 0x3c] 0x65) 17
        (scan_state Status.STATUS_PARSE_PPS_END 5 11 1 0)
      = { status := Status.STATUS_PARSE_ERROR, sps_offset := 5, pps_offset := 11,
          sps_size := 1, pps_size := 0, reads := [17] }
    ∧ loop_body (fun _ => 0) (round_trip_nal 0x67 [0x42] 0x68 [0xce, 0x3c] 0x68) 17
        (scan_state Status.STATUS_PARSE_PPS_END 5 11 1 0)
      = { status := Status.STATUS_PARSE_ERROR, sps_offset := 5, pps_offset := 11,
          sps_size := 2, pps_size := 0, reads := [17, 16, 15, 14, 13] } := by
  decide

/-- C16: at a position `i` of `nal_data` preceded by the start code
`00 00 00 01` (so `i ≥ 4`): from `STATUS_PARSE_SPS`, a byte with low nibble 7 at `i` moves
the scan to `STATUS_PARSE_PPS` with `sps_offset = i+1`; from
`STATUS_PARSE_PPS`, a byte with low nibble 8 at `i` moves it to
`STATUS_PARSE_PPS_END` with `pps_offset = i+1` and
`sps_size = pps_offset - sps_offset - 5`, which for an SPS type byte at index
`t` (so `sps_offset = t+1`) lying before the start code is the number of
indices strictly between `t` and the first byte `i-4` of the start code. -/
theorem scan_step_records_offsets (env : Int → Nat) (nal : List Nat) (i : Nat)
    (s : ScanState) (hsc : start_code_before nal i = true) :
    (s.status = Status.STATUS_PARSE_SPS → nal.getD i 0 &&& 0x0f = 0x07 →
      (loop_body env nal (i : Int) s).status = Status.STATUS_PARSE_PPS
      ∧ (loop_body env nal (i : Int) s).sps_offset = (i : Int) + 1)
    ∧ (s.status = Status.STATUS_PARSE_PPS → nal.getD i 0 &&& 0x0f = 0x08 →
      (loop_body env nal (i : Int) s).status = Status.STATUS_PARSE_PPS_END
      ∧ (loop_body env nal (i : Int) s).pps_offset = (i : Int) + 1
      ∧ (loop_body env nal (i : Int) s).sps_offset = s.sps_offset
      ∧ (loop_body env nal (i : Int) s).sps_size
          = (loop_body env nal (i : Int) s).pps_offset - s.sps_offset - 5
      ∧ ∀ t : Nat, s.sps_offset = (t : Int) + 1 → t + 4 < i →
          (loop_body env nal (i : Int) s).sps_size = ((Finset.Ioo t (i - 4)).card : Int)) := by
  constructor
  · intro hs hnib
    rw [loop_body_SPS_match env nal i s hs hsc hnib]
    exact ⟨rfl, rfl⟩
  · intro hs hnib
    rw [loop_body_PPS_match env nal i s hs hsc hnib]
    refine ⟨rfl, rfl, rfl, rfl, ?_⟩
    intro t ht hlt
    simp only [Nat.card_Ioo]
    rw [ht]
    omega

/-- Witness for C16: the round-trip buffer `00 00 00 01 67 42 00 00 00 01 68 ce
00 00 00 01 65`, at `i = 4` from `STATUS_PARSE_SPS` and at `i = 10` from
`STATUS_PARSE_PPS` with `sps_offset = 5`; the one SPS byte `42` is counted. -/
theorem scan_step_records_offsets_witness :
    ((loop_body (fun _ => 0) (round_trip_nal 0x67 [0x42] 0x68 [0xce] 0x65) ((4 : Nat) : Int)
        (scan_state Status.STATUS_PARSE_SPS 0 0 0 0)).status = Status.STATUS_PARSE_PPS
      ∧ (loop_body (fun _ => 0) (round_trip_nal 0x67 [0x42] 0x68 [0xce] 0x65) ((4 : Nat) : Int)
        (scan_state Status.STATUS_PARSE_SPS 0 0 0 0)).sps_offset = ((4 : Nat) : Int) + 1)
    ∧ (loop_body (fun _ => 0) (round_trip_nal 0x67 [0x42] 0x68 [0xce] 0x65) ((10 : Nat) : Int)
        (scan_state Status.STATUS_PARSE_PPS 5 0 0 0)).sps_size
      = ((Finset.Ioo 4 (10 - 4)).card : Int)
    ∧ ((Finset.Ioo 4 (10 - 4)).card : Int) = 1 :=
  ⟨(scan_step_records_offsets (fun _ => 0) (round_trip_nal 0x67 [0x42] 0x68 [0xce] 0x65) 4
      (scan_state Status.STATUS_PARSE_SPS 0 0 0 0) (by decide)).1 rfl (by decide),
   ((scan_step_records_offsets (fun _ => 0) (round_trip_nal 0x67 [0x42] 0x68 [0xce] 0x65) 10
      (scan_state Status.STATUS_PARSE_PPS 5 0 0 0) (by decide)).2 rfl
      (by decide)).2.2.2.2 4 (by decide) (by decide),
   by decide⟩

/-- C19: on a little-endian host, for a buffer of bytes with first bytes `b0`,
`b1`, `get_valid_data_length` returns `65536*b1 + 256*b0 + b1`; reduced modulo
65536 this is the big-endian length `256*b0 + b1`, and the returned value
equals that length exactly when `b1 = 0`. -/
theorem get_valid_data_length_little_endian_value (env : Int → Nat) (data : List Nat)
    (hb : isBytes data) (h2 : 2 ≤ data.length) :
    get_valid_data_length ByteOrder.little env data
      = 65536 * (data.getD 1 0 : Int) + 256 * (data.getD 0 0 : Int) + (data.getD 1 0 : Int)
    ∧ get_valid_data_length ByteOrder.little env data % 65536
      = 256 * (data.getD 0 0 : Int) + (data.getD 1 0 : Int)
    ∧ (get_valid_data_length ByteOrder.little env data
        = 256 * (data.getD 0 0 : Int) + (data.getD 1 0 : Int) ↔ data.getD 1 0 = 0) := by
  have h0 := isBytes_getD data hb 0
  have h1 := isBytes_getD data hb 1
  have e : get_valid_data_length ByteOrder.little env data
      = 65536 * (data.getD 1 0 : Int) + 256 * (data.getD 0 0 : Int) + (data.getD 1 0 : Int) := by
    unfold get_valid_data_length
    rw [SWAP16_load16_little env data hb h2]
    push_cast
    rfl
  refine ⟨e, ?_, ?_⟩
  · rw [e]
    omega
  · rw [e]
    omega

/-- Witness for C19: the bytes `00 05` give `65536*5 + 5`. -/
theorem get_valid_data_length_little_endian_value_witness :
    get_valid_data_length ByteOrder.little (fun _ => 0) [0, 5]
      = 65536 * ([0, 5].getD 1 0 : Int) + 256 * ([0, 5].getD 0 0 : Int) + ([0, 5].getD 1 0 : Int)
    ∧ get_valid_data_length ByteOrder.little (fun _ => 0) [0, 5] % 65536
      = 256 * ([0, 5].getD 0 0 : Int) + ([0, 5].getD 1 0 : Int)
    ∧ (get_valid_data_length ByteOrder.little (fun _ => 0) [0, 5]
        = 256 * ([0, 5].getD 0 0 : Int) + ([0, 5].getD 1 0 : Int) ↔ [0, 5].getD 1 0 = 0) :=
  get_valid_data_length_little_endian_value (fun _ => 0) [0, 5] (by decide) (by decide)

/-- C5, counterexample: the five-byte buffer `00 06 00 01 02` declares length 6,
more than the bytes it holds, and the call does not return `-1`: it reads past
the buffer, so its behaviour is undefined; the buffer `00 04 00 01 02` declares
length 4 and the call does not return `-1` either: `assert` aborts it. -/
theorem parse_data_package_run_bad_length_not_rejected :
    parse_data_package_run ByteOrder.little (fun _ => 0) [0, 6, 0, 1, 2] ⟨0, 0, 0, 0, [], 0⟩
      = Outcome.undefined
    ∧ parse_data_package_run ByteOrder.little (fun _ => 0) [0, 4, 0, 1, 2] ⟨0, 0, 0, 0, [], 0⟩
      = Outcome.aborts := by
  decide

/-- C5, amended: on a little-endian host, for a buffer of bytes with
`package_type` 0x01 and declared length `L = 256*byte0 + byte1`: a call of
`parse_data_package` that returns, returns 0, so there is no failure return
for a length; and when `L ≥ 5` and the buffer holds at least `L+1` bytes the
call returns 0 with `package_length = L` and `L-5` bytes of `nal_data`. -/
theorem parse_data_package_run_no_length_failure (env : Int → Nat) (data : List Nat)
    (package : data_package) (hb : isBytes data) (h4 : 4 ≤ data.length)
    (ht : data.getD 3 0 = 1) :
    (∀ r p, parse_data_package_run ByteOrder.little env data package = Outcome.returns (r, p) →
        r = 0)
    ∧ (5 ≤ 256 * data.getD 0 0 + data.getD 1 0 →
        256 * data.getD 0 0 + data.getD 1 0 + 1 ≤ data.length →
        ∃ p, parse_data_package_run ByteOrder.little env data package = Outcome.returns (0, p)
          ∧ p.package_length = 256 * data.getD 0 0 + data.getD 1 0
          ∧ p.nal_data.length = 256 * data.getD 0 0 + data.getD 1 0 - 5) := by
  have h0 := isBytes_getD data hb 0
  have h1 := isBytes_getD data hb 1
  have hS : SWAP16 (load16 ByteOrder.little env data) % 65536
      = 256 * data.getD 0 0 + data.getD 1 0 := by
    rw [SWAP16_load16_little env data hb (by omega)]
    omega
  have e3 : peek env data 3 = 1 := (peek_of_lt env data 3 (by omega)).trans ht
  refine ⟨fun r p hrun =>
    parse_data_package_run_returns_zero ByteOrder.little env data package e3 r p hrun, ?_⟩
  intro hL hlen
  have hin := parse_data_package_reads_in_bounds ByteOrder.little env data e3
    (by rw [hS]; exact hL) (by rw [hS]; exact hlen)
  have hrun := parse_data_package_accept ByteOrder.little env data package e3
    (by rw [hS]; exact hL)
  have hout : parse_data_package_run ByteOrder.little env data package
      = Outcome.returns (0,
          { package_length := SWAP16 (load16 ByteOrder.little env data) % 65536
            seq := peek env data 2
            package_type := peek env data 3
            slice_ident := peek env data 4
            nal_data := memcpy_src env data 5
              (SWAP16 (load16 ByteOrder.little env data) % 65536 - 5)
            verify := peek env data
              ((SWAP16 (load16 ByteOrder.little env data) % 65536 : Nat) : Int) }) := by
    unfold parse_data_package_run
    rw [if_pos hin, hrun]
  exact ⟨_, hout, hS, by simp only [hS]; simp [memcpy_src]⟩

/-- Witness for C5, amended: the frame `00 08 07 01 02 0a 0b 0c 06`. -/
theorem parse_data_package_run_no_length_failure_witness :
    ∃ p, parse_data_package_run ByteOrder.little (fun _ => 0) [0, 8, 7, 1, 2, 10, 11, 12, 6]
        ⟨0, 0, 0, 0, [], 0⟩ = Outcome.returns (0, p)
      ∧ p.package_length = 256 * [0, 8, 7, 1, 2, 10, 11, 12, 6].getD 0 0
          + [0, 8, 7, 1, 2, 10, 11, 12, 6].getD 1 0
      ∧ p.nal_data.length = 256 * [0, 8, 7, 1, 2, 10, 11, 12, 6].getD 0 0
          + [0, 8, 7, 1, 2, 10, 11, 12, 6].getD 1 0 - 5 :=
  (parse_data_package_run_no_length_failure (fun _ => 0) [0, 8, 7, 1, 2, 10, 11, 12, 6]
    ⟨0, 0, 0, 0, [], 0⟩ (by decide) (by decide) (by decide)).2 (by decide) (by decide)

/-- C9, the code at the failing inputs: the one-byte `nal_data` `07` and the
empty `nal_data` are shorter than 5 bytes and hold no complete SPS+PPS pair,
and `07 00 00 00 01 67` holds an SPS unit start and no PPS unit start; started
in `STATUS_PARSE_SPS`, the call reads outside `nal_data` on each of them, so
its behaviour is undefined, whatever the memory around the buffer holds. -/
theorem has_sps_pps_run_undefined_on_short_nal_data
    (chrs_join : List Nat → List Nat → List Nat) (env : Int → Nat) :
    (contains_complete_pair [0x07] = false
      ∧ has_sps_pps_run chrs_join env (packet_of_nal [0x07]) Status.STATUS_PARSE_SPS
          = Outcome.undefined)
    ∧ (contains_complete_pair [] = false
      ∧ has_sps_pps_run chrs_join env (packet_of_nal []) Status.STATUS_PARSE_SPS
          = Outcome.undefined)
    ∧ (contains_unit [0x07, 0x00, 0x00, 0x00, 0x01, 0x67] 0x07 = true
      ∧ contains_unit [0x07, 0x00, 0x00, 0x00, 0x01, 0x67] 0x08 = false
      ∧ has_sps_pps_run chrs_join env (packet_of_nal [0x07, 0x00, 0x00, 0x00, 0x01, 0x67])
          Status.STATUS_PARSE_SPS = Outcome.undefined) := by
  refine ⟨⟨by decide, ?_⟩, ⟨by decide, ?_⟩, ⟨by decide, by decide, ?_⟩⟩
  · apply has_sps_pps_run_undefined chrs_join env _ _ (Or.inl (by decide)) (-1) ?_ (by decide)
    apply scan_reads_first env _ _ _ (by decide)
    apply loop_body_SPS_reads env _ _ _ rfl
    have h := unit_start_reads_lookback env [0x07] 0 0x07 (by simp [peek]; decide)
    simpa using h
  · apply has_sps_pps_run_undefined chrs_join env _ _ (Or.inl (by decide)) 0 ?_ (by decide)
    apply scan_reads_first env _ _ _ (by decide)
    apply loop_body_SPS_reads env _ _ _ rfl
    exact unit_start_reads_head env [] 0 0x07
  · apply has_sps_pps_run_undefined chrs_join env _ _ (Or.inl (by decide)) (-1) ?_ (by decide)
    apply scan_reads_first env _ _ _ (by decide)
    apply loop_body_SPS_reads env _ _ _ rfl
    have h := unit_start_reads_lookback env [0x07, 0x00, 0x00, 0x00, 0x01, 0x67] 0 0x07
      (by simp [peek]; decide)
    simpa using h

/-- C13, counterexample: with `status` equal to `STATUS_PARSE_PPS` on entry and
the one-byte `nal_data` `68` (`package_length` 6), the first iteration reads
`data[-1]`; the call's behaviour is undefined, it is not a return of `-1`. -/
theorem has_sps_pps_run_undefined_from_pps :
    has_sps_pps_run (fun a b => a ++ b) (fun _ => 0) (packet_of_nal [0x68])
      Status.STATUS_PARSE_PPS = Outcome.undefined := by
  decide

/-- C13, amended: `STATUS_PARSE_SUCCESS` is never the state when the loop ends.
For every packet on which the loop reads only inside `nal_data`, when `status`
on entry is not `STATUS_PARSE_SUCCESS` or `package_length` is at least 1, the
loop ends in another state and `has_sps_pps` returns `-1` without assigning
`sps`, `pps` or `sps_pps`.  An iteration that does not `continue` ends in
`STATUS_PARSE_ERROR`, the one whose switch assigns `STATUS_PARSE_SUCCESS`
included, and an iteration started in `STATUS_PARSE_ERROR` changes nothing. -/
theorem has_sps_pps_run_never_succeeds (chrs_join : List Nat → List Nat → List Nat)
    (env : Int → Nat) (package : data_package) (status0 : Status) (i : Int) (s : ScanState)
    (h : status0 ≠ Status.STATUS_PARSE_SUCCESS ∨ 1 ≤ package.package_length)
    (hin : (scan env package status0).reads.all (in_bounds package.nal_data) = true) :
    (scan env package status0).status ≠ Status.STATUS_PARSE_SUCCESS
    ∧ has_sps_pps_run chrs_join env package status0
        = Outcome.returns { ret := -1, sps := none, pps := none, sps_pps := none,
                            reads := (scan env package status0).reads }
    ∧ ((switch_status env package.nal_data i s).2 = false →
        (loop_body env package.nal_data i s).status = Status.STATUS_PARSE_ERROR)
    ∧ ((switch_status env package.nal_data i s).1.status = Status.STATUS_PARSE_SUCCESS →
        (switch_status env package.nal_data i s).2 = false
        ∧ (loop_body env package.nal_data i s).status = Status.STATUS_PARSE_ERROR)
    ∧ (s.status = Status.STATUS_PARSE_ERROR → loop_body env package.nal_data i s = s) := by
  have h2 : status0 ≠ Status.STATUS_PARSE_SUCCESS ∨ 0 < package.package_length := by
    rcases h with h | h
    · exact Or.inl h
    · exact Or.inr (by omega)
  refine ⟨scan_status_ne_success env package status0 h2,
    has_sps_pps_run_returns chrs_join env package status0 h2 hin,
    loop_body_of_not_continue env package.nal_data i s, ?_,
    loop_body_error env package.nal_data i s⟩
  intro hs
  have hc := switch_status_success_not_continue env package.nal_data i s hs
  exact ⟨hc, loop_body_of_not_continue env package.nal_data i s hc⟩

/-- Witness for C13, amended: the round-trip buffer `00 00 00 01 67 42 00 00 00
01 68 ce 00 00 00 01 68` with `status` equal to `STATUS_PARSE_SPS` on entry,
whose loop reads index 0 only, and the iteration at its last byte started in
`STATUS_PARSE_PPS_END`, whose switch assigns `STATUS_PARSE_SUCCESS`. -/
theorem has_sps_pps_run_never_succeeds_witness :
    ((scan (fun _ => 0) (packet_of_nal (round_trip_nal 0x67 [0x42] 0x68 [0xce] 0x68))
          Status.STATUS_PARSE_SPS).reads = [0, 0, 0]
      ∧ (switch_status (fun _ => 0)
          (packet_of_nal (round_trip_nal 0x67 [0x42] 0x68 [0xce] 0x68)).nal_data 16
          (scan_state Status.STATUS_PARSE_PPS_END 5 11 1 0)).1.status
        = Status.STATUS_PARSE_SUCCESS)
    ∧ has_sps_pps_run (fun a b => a ++ b) (fun _ => 0)
        (packet_of_nal (round_trip_nal 0x67 [0x42] 0x68 [0xce] 0x68))
        Status.STATUS_PARSE_SPS
      = Outcome.returns
          { ret := -1, sps := none, pps := none, sps_pps := none,
            reads := (scan (fun _ => 0)
              (packet_of_nal (round_trip_nal 0x67 [0x42] 0x68 [0xce] 0x68))
              Status.STATUS_PARSE_SPS).reads }
    ∧ (loop_body (fun _ => 0)
        (packet_of_nal (round_trip_nal 0x67 [0x42] 0x68 [0xce] 0x68)).nal_data 16
        (scan_state Status.STATUS_PARSE_PPS_END 5 11 1 0)).status
      = Status.STATUS_PARSE_ERROR :=
  ⟨⟨by decide, by decide⟩,
   (has_sps_pps_run_never_succeeds (fun a b => a ++ b) (fun _ => 0)
      (packet_of_nal (round_trip_nal 0x67 [0x42] 0x68 [0xce] 0x68))
      Status.STATUS_PARSE_SPS 16 (scan_state Status.STATUS_PARSE_PPS_END 5 11 1 0)
      (Or.inl (by decide)) (by decide)).2.1,
   ((has_sps_pps_run_never_succeeds (fun a b => a ++ b) (fun _ => 0)
      (packet_of_nal (round_trip_nal 0x67 [0x42] 0x68 [0xce] 0x68))
      Status.STATUS_PARSE_SPS 16 (scan_state Status.STATUS_PARSE_PPS_END 5 11 1 0)
      (Or.inl (by decide)) (by decide)).2.2.2.1 (by decide)).2⟩

end TransferProtocol
